import Mathlib

/-!
Verification of `serve.py`, a local development static file server.

The embedding models the two components of the program:

* `CORSHTTPRequestHandler.end_headers` / `do_OPTIONS`: header decoration.
  Python buffers headers via `send_header` and flushes them in
  `end_headers`; we model the decoration as the list of header
  name/value pairs that `end_headers` appends to the already-buffered
  headers before calling the superclass finalizer.
* `find_free_port`: the port scan.  The ability of the operating system
  to bind a given port is abstracted as an oracle `free : Nat → Bool`
  (`free p = true` iff `socket.bind(("", p))` succeeds; any `OSError`
  is `free p = false`).
-/

namespace Serve

/-- Python `str.endswith(suffix)`: case-sensitive suffix match on the raw
character sequence of the string. -/
def strEndsWith (s suffix : String) : Bool :=
  suffix.data.isSuffixOf s.data

/-- The five headers unconditionally sent by
`CORSHTTPRequestHandler.end_headers` (serve.py lines 16-20), in order. -/
def baselineHeaders : List (String × String) :=
  [("Access-Control-Allow-Origin", "*"),
   ("Access-Control-Allow-Methods", "GET, POST, OPTIONS"),
   ("Access-Control-Allow-Headers", "Content-Type"),
   ("Cross-Origin-Embedder-Policy", "require-corp"),
   ("Cross-Origin-Opener-Policy", "same-origin")]

/-- The three no-cache headers sent when the raw request path ends in
`.js` or `.html` (serve.py lines 24-26), in order. -/
def noCacheHeaders : List (String × String) :=
  [("Cache-Control", "no-cache, no-store, must-revalidate"),
   ("Pragma", "no-cache"),
   ("Expires", "0")]

/-- The per-request fields of the Python handler object (`self`) that are
visible to the code under verification: the request method, the raw
request path string (`self.path`, including any query string), and the
response status chosen by the dispatched method. -/
structure HandlerState where
  method : String
  path : String
  status : Nat

/-- The suffix test of serve.py line 23:
`self.path.endswith('.js') or self.path.endswith('.html')`. -/
def pathWantsNoCache (s : HandlerState) : Bool :=
  strEndsWith s.path ".js" || strEndsWith s.path ".html"

/-- The headers appended by the `end_headers` override (serve.py
lines 15-26), in order: the five baseline headers, then the three
no-cache headers when the suffix test on `self.path` holds. -/
def endHeadersExtras (s : HandlerState) : List (String × String) :=
  baselineHeaders ++ (if pathWantsNoCache s then noCacheHeaders else [])

/-- `CORSHTTPRequestHandler.end_headers` (serve.py lines 15-28): given the
headers already buffered by earlier `send_header` calls, it appends the
decoration and then `super().end_headers()` finalizes exactly this list. -/
def end_headers (s : HandlerState) (buffered : List (String × String)) :
    List (String × String) :=
  buffered ++ endHeadersExtras s

/-- An HTTP response as observable from the handler: status code, the
finalized header list, and the body. -/
structure Response where
  status : Nat
  headers : List (String × String)
  body : String

/-- `CORSHTTPRequestHandler.do_OPTIONS` (serve.py lines 30-32):
`send_response(200)` (which buffers the library's automatic headers,
passed here as `auto`), then `end_headers()`, and no body is written. -/
def do_OPTIONS (path : String) (auto : List (String × String)) : Response :=
  { status := 200
    headers := end_headers { method := "OPTIONS", path := path, status := 200 } auto
    body := "" }

/-- The scanning loop body of `find_free_port` (serve.py lines 37-43):
walk the candidate ports in order; a successful bind returns that port
at once, a bind failure (`OSError`) falls through to the next candidate;
an exhausted candidate list yields `none`. -/
def scanPorts (free : Nat → Bool) : List Nat → Option Nat
  | [] => none
  | p :: rest => if free p then some p else scanPorts free rest

/-- `find_free_port(start_port)` (serve.py lines 34-44): scan
`range(start_port, start_port + 100)`, i.e. the 100 candidate ports
`start_port, start_port+1, …, start_port+99`, in increasing order. -/
def find_free_port (free : Nat → Bool) (start_port : Nat) : Option Nat :=
  scanPorts free (List.range' start_port 100)

/-- Number of bind attempts performed by the scanning loop: one per
candidate inspected, stopping at the first success. -/
def scanPortsProbes (free : Nat → Bool) : List Nat → Nat
  | [] => 0
  | p :: rest => if free p then 1 else 1 + scanPortsProbes free rest

/-- The only way `httpd.serve_forever()` returns in serve.py is a
`KeyboardInterrupt` (lines 81-85). -/
inductive ServeEnd where
  | keyboardInterrupt

/-- Exit status of `main` (serve.py lines 46-85): exit 1 when
`find_free_port(8000)` returns `None` (lines 52-55), exit 0 when serving
ends by keyboard interrupt (lines 81-85). -/
def main (free : Nat → Bool) (e : ServeEnd) : Nat :=
  match find_free_port free 8000 with
  | none => 1
  | some _ =>
    match e with
    | ServeEnd.keyboardInterrupt => 0

/-! ### Helper lemmas on the port scan -/

/-- The scan returns `none` exactly when every candidate fails to bind. -/
theorem scanPorts_eq_none_iff (free : Nat → Bool) (l : List Nat) :
    scanPorts free l = none ↔ ∀ p ∈ l, free p = false := by
  induction l with
  | nil => simp [scanPorts]
  | cons p rest ih =>
    by_cases h : free p = true
    · simp [scanPorts, h]
    · simp only [Bool.not_eq_true] at h
      simp [scanPorts, h, ih]

/-- A port returned by the scan is a member of the candidate list. -/
theorem scanPorts_mem (free : Nat → Bool) (l : List Nat) (n : Nat)
    (h : scanPorts free l = some n) : n ∈ l := by
  induction l with
  | nil => simp [scanPorts] at h
  | cons p rest ih =>
    by_cases hp : free p = true
    · simp [scanPorts, hp] at h
      simp [h]
    · simp only [Bool.not_eq_true] at hp
      simp [scanPorts, hp] at h
      exact List.mem_cons_of_mem _ (ih h)

/-- The scan over a contiguous range returns the least bindable port. -/
theorem scanPorts_range'_first (free : Nat → Bool) (k : Nat) :
    ∀ s n : Nat, s ≤ n → n < s + k → free n = true →
    (∀ m, s ≤ m → m < n → free m = false) →
    scanPorts free (List.range' s k) = some n := by
  induction k with
  | zero => intro s n h1 h2; omega
  | succ k ih =>
    intro s n h1 h2 h3 h4
    rw [List.range'_succ]
    by_cases hs : s = n
    · subst hs
      simp [scanPorts, h3]
    · have hfs : free s = false := h4 s le_rfl (by omega)
      simp [scanPorts, hfs]
      exact ih (s + 1) n (by omega) (by omega) h3
        (fun m hm1 hm2 => h4 m (by omega) hm2)

/-- The probe count is bounded by the length of the candidate list. -/
theorem scanPortsProbes_le_length (free : Nat → Bool) (l : List Nat) :
    scanPortsProbes free l ≤ l.length := by
  induction l with
  | nil => simp [scanPortsProbes]
  | cons p rest ih =>
    by_cases h : free p = true
    · simp [scanPortsProbes, h]
    · simp only [Bool.not_eq_true] at h
      simp [scanPortsProbes, h]
      omega

/-! ### Claims -/

/-- Claim C1: for every request — any method, any raw path, any response
status, any headers already buffered by the underlying handler — the
header list finalized by `end_headers` contains all five baseline
headers with their exact literal values, and it is exactly the buffered
headers followed by the decoration (so the decoration is added before
the superclass finalizes the headers, on every response path including
errors such as 404). -/
theorem c1_baseline_headers_always (s : HandlerState)
    (buffered : List (String × String)) :
    ("Access-Control-Allow-Origin", "*") ∈ end_headers s buffered ∧
    ("Access-Control-Allow-Methods", "GET, POST, OPTIONS") ∈ end_headers s buffered ∧
    ("Access-Control-Allow-Headers", "Content-Type") ∈ end_headers s buffered ∧
    ("Cross-Origin-Embedder-Policy", "require-corp") ∈ end_headers s buffered ∧
    ("Cross-Origin-Opener-Policy", "same-origin") ∈ end_headers s buffered ∧
    end_headers s buffered = buffered ++ endHeadersExtras s := by
  refine ⟨?_, ?_, ?_, ?_, ?_, rfl⟩ <;>
    · simp [end_headers, endHeadersExtras, baselineHeaders]

/-- Claim C2: the three no-cache headers with their exact literal values
are appended by `end_headers` exactly when the raw request path string
(as given, query string included) ends with the case-sensitive suffix
`.js` or `.html`; for any other path the decoration consists of the five
baseline header names only, so the three no-cache headers are absent. -/
theorem c2_no_cache_iff_suffix (s : HandlerState) :
    ((strEndsWith s.path ".js" || strEndsWith s.path ".html") = true →
      endHeadersExtras s = baselineHeaders ++ noCacheHeaders) ∧
    ((strEndsWith s.path ".js" || strEndsWith s.path ".html") = false →
      (endHeadersExtras s).map Prod.fst =
        ["Access-Control-Allow-Origin", "Access-Control-Allow-Methods",
         "Access-Control-Allow-Headers", "Cross-Origin-Embedder-Policy",
         "Cross-Origin-Opener-Policy"]) := by
  constructor
  · intro h
    simp [endHeadersExtras, pathWantsNoCache, h]
  · intro h
    simp [endHeadersExtras, pathWantsNoCache, h, baselineHeaders]

/-- Witness for C2 at concrete paths: `/app.js` gets the no-cache
headers, `/logo.png` gets only the five baseline header names. -/
theorem c2_no_cache_iff_suffix_witness :
    endHeadersExtras { method := "GET", path := "/app.js", status := 200 } =
      baselineHeaders ++ noCacheHeaders ∧
    (endHeadersExtras { method := "GET", path := "/logo.png", status := 200 }).map Prod.fst =
      ["Access-Control-Allow-Origin", "Access-Control-Allow-Methods",
       "Access-Control-Allow-Headers", "Cross-Origin-Embedder-Policy",
       "Cross-Origin-Opener-Policy"] :=
  ⟨(c2_no_cache_iff_suffix { method := "GET", path := "/app.js", status := 200 }).1
      (by decide),
   (c2_no_cache_iff_suffix { method := "GET", path := "/logo.png", status := 200 }).2
      (by decide)⟩

/-- Claim C3 counterexample: the claim says the three no-cache headers
are never added to an OPTIONS response even when the path ends in `.js`,
but `do_OPTIONS` calls the overridden `end_headers`, which applies the
suffix check to `self.path` regardless of method: an OPTIONS request to
`/app.js` does receive `Cache-Control: no-cache, no-store,
must-revalidate`, `Pragma: no-cache` and `Expires: 0`. -/
theorem c3_counterexample :
    (do_OPTIONS "/app.js" []).status = 200 ∧
    (do_OPTIONS "/app.js" []).body = "" ∧
    ("Cache-Control", "no-cache, no-store, must-revalidate") ∈
      (do_OPTIONS "/app.js" []).headers ∧
    ("Pragma", "no-cache") ∈ (do_OPTIONS "/app.js" []).headers ∧
    ("Expires", "0") ∈ (do_OPTIONS "/app.js" []).headers := by
  refine ⟨rfl, rfl, ?_, ?_, ?_⟩ <;>
    simp [do_OPTIONS, end_headers, endHeadersExtras, pathWantsNoCache,
      noCacheHeaders, show strEndsWith "/app.js" ".js" = true from by decide]

/-- Claim C3 as amended: an OPTIONS request to any path is answered with
status 200, an empty body, and the headers buffered by `send_response`
followed by the five baseline headers — plus the three no-cache headers
whenever the raw path ends with `.js` or `.html`, because the
`end_headers` decoration applies its suffix check regardless of the
request method. -/
theorem c3_options_response (path : String) (auto : List (String × String)) :
    (do_OPTIONS path auto).status = 200 ∧
    (do_OPTIONS path auto).body = "" ∧
    (do_OPTIONS path auto).headers =
      auto ++ (baselineHeaders ++
        (if (strEndsWith path ".js" || strEndsWith path ".html") = true then
          noCacheHeaders else [])) := by
  refine ⟨rfl, rfl, ?_⟩
  simp [do_OPTIONS, end_headers, endHeadersExtras, pathWantsNoCache]

/-- Claim C4: when every port of the 100-port window fails to bind,
`find_free_port` returns the sentinel `none` (and, being a total
function of the bind oracle, it does not raise). -/
theorem c4_exhaustion_returns_none (free : Nat → Bool) (P : Nat)
    (h : ∀ i, i < 100 → free (P + i) = false) :
    find_free_port free P = none := by
  rw [find_free_port, scanPorts_eq_none_iff]
  intro p hp
  rw [List.mem_range'_1] at hp
  have : p = P + (p - P) := by omega
  rw [this]
  exact h (p - P) (by omega)

/-- Witness for C4: with no port bindable, the scan from 8000 yields
`none`. -/
theorem c4_exhaustion_returns_none_witness :
    find_free_port (fun _ => false) 8000 = none :=
  c4_exhaustion_returns_none (fun _ => false) 8000 (fun _ _ => rfl)

/-- Claim C5: the scan probes `P, P+1, …, P+99` in increasing order and
returns the first bindable port: if `n` lies in the window, `n` binds,
and every port from `P` up to (excluding) `n` fails, the result is
exactly `n`; in particular a free start port `P` is returned itself. -/
theorem c5_first_free_port (free : Nat → Bool) (P n : Nat)
    (h1 : P ≤ n) (h2 : n < P + 100) (h3 : free n = true)
    (h4 : ∀ m, P ≤ m → m < n → free m = false) :
    find_free_port free P = some n :=
  scanPorts_range'_first free 100 P n h1 h2 h3 h4

/-- Witness for C5: with every port bindable, the scan from 8000 returns
8000 itself. -/
theorem c5_first_free_port_witness :
    find_free_port (fun _ => true) 8000 = some 8000 :=
  c5_first_free_port (fun _ => true) 8000 8000 le_rfl (by omega) rfl
    (fun m hm1 hm2 => absurd hm2 (by omega))

/-- Claim C6: a bind failure on an individual candidate is silently
skipped — the scan on that candidate equals the scan on the remaining
candidates — and only exhaustion of the whole range yields the failure
result: `find_free_port` is `none` exactly when every port of the window
fails to bind. -/
theorem c6_skip_and_exhaustion (free : Nat → Bool) (p : Nat)
    (rest : List Nat) (P : Nat) :
    (free p = false → scanPorts free (p :: rest) = scanPorts free rest) ∧
    (find_free_port free P = none ↔
      ∀ q ∈ List.range' P 100, free q = false) := by
  constructor
  · intro h
    simp [scanPorts, h]
  · rw [find_free_port]
    exact scanPorts_eq_none_iff free (List.range' P 100)

/-- Witness for C6: port 8000 failing to bind is skipped and the scan
continues with the remaining candidate 8001. -/
theorem c6_skip_and_exhaustion_witness :
    scanPorts (fun q => q == 8001) (8000 :: [8001]) =
      scanPorts (fun q => q == 8001) [8001] :=
  (c6_skip_and_exhaustion (fun q => q == 8001) 8000 [8001] 8000).1 (by decide)

/-- Claim C7: `main` exits with status 1 when the port scan starting at
8000 finds no bindable port, and exits with status 0 when a port is
found and serving is ended by a keyboard interrupt; these are the only
exit paths of the model. -/
theorem c7_exit_codes (free : Nat → Bool) (e : ServeEnd) :
    (find_free_port free 8000 = none → main free e = 1) ∧
    (∀ p, find_free_port free 8000 = some p → main free e = 0) := by
  constructor
  · intro h
    simp [main, h]
  · intro p h
    cases e
    simp [main, h]

/-- Witness for C7: with no bindable port `main` returns 1; with every
port bindable and a keyboard interrupt it returns 0. -/
theorem c7_exit_codes_witness :
    main (fun _ => false) ServeEnd.keyboardInterrupt = 1 ∧
    main (fun _ => true) ServeEnd.keyboardInterrupt = 0 :=
  ⟨(c7_exit_codes (fun _ => false) ServeEnd.keyboardInterrupt).1 (by decide),
   (c7_exit_codes (fun _ => true) ServeEnd.keyboardInterrupt).2 8000 (by decide)⟩

/-- Claim C8: any port actually returned by `find_free_port` lies in the
scan window: `P ≤ n ≤ P + 99`. -/
theorem c8_result_in_window (free : Nat → Bool) (P n : Nat)
    (h : find_free_port free P = some n) : P ≤ n ∧ n ≤ P + 99 := by
  have hn := scanPorts_mem free (List.range' P 100) n h
  rw [List.mem_range'_1] at hn
  omega

/-- Witness for C8: the port returned when everything binds, 8000, lies
in the window `[8000, 8099]`. -/
theorem c8_result_in_window_witness :
    8000 ≤ 8000 ∧ 8000 ≤ 8000 + 99 :=
  c8_result_in_window (fun _ => true) 8000 8000 (by decide)

/-- Claim C9: the header decoration is a function of the raw request
path string alone — two handler states with equal paths produce exactly
the same appended header sequence (the five baseline headers, followed
by the three no-cache headers exactly when the suffix test holds),
independent of method, status, or any other request data. -/
theorem c9_decoration_deterministic (s₁ s₂ : HandlerState)
    (h : s₁.path = s₂.path) :
    endHeadersExtras s₁ = endHeadersExtras s₂ ∧
    endHeadersExtras s₁ =
      baselineHeaders ++ (if pathWantsNoCache s₁ then noCacheHeaders else []) := by
  constructor
  · simp [endHeadersExtras, pathWantsNoCache, h]
  · rfl

/-- Witness for C9: a GET with status 200 and a POST with status 404 on
the same path `/a.js` receive identical decorations. -/
theorem c9_decoration_deterministic_witness :
    endHeadersExtras { method := "GET", path := "/a.js", status := 200 } =
      endHeadersExtras { method := "POST", path := "/a.js", status := 404 } :=
  (c9_decoration_deterministic
    { method := "GET", path := "/a.js", status := 200 }
    { method := "POST", path := "/a.js", status := 404 } rfl).1

/-- Claim C10: the scan terminates for every start port with at most 100
bind attempts (the candidate list has length 100 and each candidate is
probed at most once), returning either a port or `none`. -/
theorem c10_at_most_100_probes (free : Nat → Bool) (P : Nat) :
    scanPortsProbes free (List.range' P 100) ≤ 100 ∧
    (find_free_port free P = none ∨ ∃ n, find_free_port free P = some n) := by
  constructor
  · have h := scanPortsProbes_le_length free (List.range' P 100)
    simpa [List.length_range'] using h
  · cases hfp : find_free_port free P with
    | none => exact Or.inl rfl
    | some n => exact Or.inr ⟨n, rfl⟩

end Serve
